import Mathlib

/-!
Verification of the pricing computation and comparison engine of the
Cloud Service Pricing Simulator. The definitions below are a shallow
embedding of `src/utils.py` (cost calculator, comparison engine,
performance-ratio engine) and of the multi-service total-cost loop of
`src/app.py` (tab 4). Python floats are modelled as rationals; the
`float('inf')` sentinel used for ratios and for the running minimum is
modelled as `⊤ : WithTop ℚ`; a pandas row's optional columns are
modelled as `Option` fields.
-/

namespace CloudPricing

/-- One row of the pricing catalog, mirroring the column schema
`Provider, Service, Instance Type, Region, Usage Type, Price Per Unit,
Units, Currency, Performance Score, Availability, Reserved Discount 1yr,
Reserved Discount 3yr` used throughout `src/utils.py`. Optional columns
are `Option` fields. -/
structure PricingRecord where
  provider : String
  service : String
  instanceType : Option String
  region : String
  usageType : String
  pricePerUnit : ℚ
  units : String
  currency : String
  performanceScore : Option ℚ
  availability : Option ℚ
  reservedDiscount1yr : Option ℚ
  reservedDiscount3yr : Option ℚ
  deriving Repr, DecidableEq

/-- Embedding of `calculate_cost` (src/utils.py lines 86-113):
`cost = usage * price_per_unit`, divided by 30 for `'day'`, multiplied
by 12 for `'year'`, unscaled otherwise. The `reserved_instance`
parameter is accepted (with the same position as in the Python
signature) and, as in the source, never read. -/
def calculate_cost (usage : ℚ) (price_per_unit : ℚ)
    (time_period : String) (reserved_instance : String) : ℚ :=
  let _ := reserved_instance
  let cost := usage * price_per_unit
  if time_period = "day" then cost / 30
  else if time_period = "year" then cost * 12
  else cost

/-- Embedding of `apply_reserved_discount` (src/utils.py lines 115-129). -/
def apply_reserved_discount (cost : ℚ) (discount_percentage : ℚ) : ℚ :=
  cost * (1 - discount_percentage / 100)

/-- The dictionary returned by `calculate_total_cost`. -/
structure CostInfo where
  base_cost : ℚ
  discount_percentage : ℚ
  final_cost : ℚ
  currency : String
  time_period : String
  deriving Repr, DecidableEq

/-- Embedding of `calculate_total_cost` (src/utils.py lines 131-168).
The Python guard `reserved_instance == '1yr' and 'Reserved Discount 1yr'
in pricing_row` becomes a match on the optional field; when the field is
absent the `elif`/default chain leaves `discount = 0` and
`final_cost = base_cost`. -/
def calculate_total_cost (pricing_row : PricingRecord) (usage : ℚ)
    (time_period : String) (reserved_instance : String) : CostInfo :=
  let base_cost := calculate_cost usage pricing_row.pricePerUnit time_period "on-demand"
  if reserved_instance = "1yr" then
    match pricing_row.reservedDiscount1yr with
    | some d =>
        ⟨base_cost, d, apply_reserved_discount base_cost d,
          pricing_row.currency, time_period⟩
    | none => ⟨base_cost, 0, base_cost, pricing_row.currency, time_period⟩
  else if reserved_instance = "3yr" then
    match pricing_row.reservedDiscount3yr with
    | some d =>
        ⟨base_cost, d, apply_reserved_discount base_cost d,
          pricing_row.currency, time_period⟩
    | none => ⟨base_cost, 0, base_cost, pricing_row.currency, time_period⟩
  else ⟨base_cost, 0, base_cost, pricing_row.currency, time_period⟩

/-- A concrete catalog row used to instantiate theorems with hypotheses. -/
def demoRow : PricingRecord :=
  { provider := "AWS", service := "S3 Standard", instanceType := none,
    region := "US East", usageType := "Storage", pricePerUnit := 23/1000,
    units := "GB/Month", currency := "USD", performanceScore := some 85,
    availability := some (9999/100), reservedDiscount1yr := some 20,
    reservedDiscount3yr := some 40 }

/-- A concrete catalog row with performance score 0 and price 1/100. -/
def demoRowZeroScore : PricingRecord :=
  { provider := "GCP", service := "Cloud Storage", instanceType := none,
    region := "US East", usageType := "Storage", pricePerUnit := 1/100,
    units := "GB/Month", currency := "USD", performanceScore := some 0,
    availability := none, reservedDiscount1yr := none,
    reservedDiscount3yr := none }

/-- A concrete catalog row with both reserved-discount fields absent. -/
def demoRowNoDiscount : PricingRecord :=
  { provider := "AWS", service := "S3 Standard", instanceType := none,
    region := "US East", usageType := "Storage", pricePerUnit := 23/1000,
    units := "GB/Month", currency := "USD", performanceScore := none,
    availability := none, reservedDiscount1yr := none,
    reservedDiscount3yr := none }

/-- C1: for every non-negative usage and price_per_unit,
`calculate_cost` returns `usage * price` for `"month"`,
`(usage * price) / 30` for `"day"` and `(usage * price) * 12` for
`"year"`. -/
theorem calculate_cost_period_scaling (usage price : ℚ)
    (hu : 0 ≤ usage) (hp : 0 ≤ price) :
    calculate_cost usage price "month" "on-demand" = usage * price ∧
    calculate_cost usage price "day" "on-demand" = usage * price / 30 ∧
    calculate_cost usage price "year" "on-demand" = usage * price * 12 := by
  refine ⟨?_, ?_, ?_⟩ <;> simp [calculate_cost]

/-- Witness for C1 at usage 100, price 23/1000. -/
theorem calculate_cost_period_scaling_witness :
    (0 : ℚ) ≤ 100 ∧ (0 : ℚ) ≤ 23/1000 ∧
    calculate_cost 100 (23/1000) "month" "on-demand" = 100 * (23/1000) ∧
    calculate_cost 100 (23/1000) "day" "on-demand" = 100 * (23/1000) / 30 ∧
    calculate_cost 100 (23/1000) "year" "on-demand" = 100 * (23/1000) * 12 :=
  ⟨by norm_num, by norm_num,
    calculate_cost_period_scaling 100 (23/1000) (by norm_num) (by norm_num)⟩

/-- C2: `apply_reserved_discount cost d = cost * (1 - d/100)`; a zero
discount is the identity, a 100% discount yields 0 for every cost, and a
discount above 100 applied to a positive cost yields a negative result
(no lower bound is enforced). -/
theorem apply_reserved_discount_spec :
    (∀ cost d : ℚ, apply_reserved_discount cost d = cost * (1 - d / 100)) ∧
    (∀ cost : ℚ, apply_reserved_discount cost 0 = cost) ∧
    (∀ cost : ℚ, apply_reserved_discount cost 100 = 0) ∧
    (∀ cost d : ℚ, 0 < cost → 100 < d → apply_reserved_discount cost d < 0) := by
  refine ⟨fun cost d => rfl, fun cost => by simp [apply_reserved_discount],
    fun cost => by simp [apply_reserved_discount], fun cost d hc hd => ?_⟩
  have h1 : 1 - d / 100 < 0 := by linarith
  calc cost * (1 - d / 100) < cost * 0 := by
        exact mul_lt_mul_of_pos_left h1 hc
    _ = 0 := by ring

/-- Witness for C2 at cost 5, discount 101. -/
theorem apply_reserved_discount_spec_witness :
    (0 : ℚ) < 5 ∧ (100 : ℚ) < 101 ∧ apply_reserved_discount 5 101 < 0 :=
  ⟨by norm_num, by norm_num,
    apply_reserved_discount_spec.2.2.2 5 101 (by norm_num) (by norm_num)⟩

/-- C3: for every pricing record, usage and billing period,
`calculate_total_cost` with reservation `"on-demand"` reports a zero
discount percentage and a final cost equal to the base cost computed by
`calculate_cost`. -/
theorem calculate_total_cost_on_demand (pricing_row : PricingRecord)
    (usage : ℚ) (time_period : String) :
    (calculate_total_cost pricing_row usage time_period "on-demand").discount_percentage
      = 0 ∧
    (calculate_total_cost pricing_row usage time_period "on-demand").final_cost
      = calculate_cost usage pricing_row.pricePerUnit time_period "on-demand" := by
  simp [calculate_total_cost]

/-- C4: when the record's reserved-discount field for the requested term
is absent, `calculate_total_cost` falls back to on-demand behaviour:
zero discount percentage and final cost equal to the base cost. -/
theorem calculate_total_cost_missing_discount (pricing_row : PricingRecord)
    (usage : ℚ) (time_period : String) :
    (pricing_row.reservedDiscount1yr = none →
      (calculate_total_cost pricing_row usage time_period "1yr").discount_percentage
        = 0 ∧
      (calculate_total_cost pricing_row usage time_period "1yr").final_cost
        = calculate_cost usage pricing_row.pricePerUnit time_period "on-demand") ∧
    (pricing_row.reservedDiscount3yr = none →
      (calculate_total_cost pricing_row usage time_period "3yr").discount_percentage
        = 0 ∧
      (calculate_total_cost pricing_row usage time_period "3yr").final_cost
        = calculate_cost usage pricing_row.pricePerUnit time_period "on-demand") := by
  constructor
  · intro h1
    simp [calculate_total_cost, h1]
  · intro h3
    simp [calculate_total_cost, h3]

/-- Witness for C4 at a concrete record with both discount fields
absent, usage 100, period month. -/
theorem calculate_total_cost_missing_discount_witness :
    demoRowNoDiscount.reservedDiscount1yr = none ∧
    (calculate_total_cost demoRowNoDiscount 100 "month" "1yr").discount_percentage = 0 ∧
    (calculate_total_cost demoRowNoDiscount 100 "month" "1yr").final_cost
      = calculate_cost 100 demoRowNoDiscount.pricePerUnit "month" "on-demand" :=
  ⟨rfl, (calculate_total_cost_missing_discount demoRowNoDiscount 100 "month").1 rfl⟩

/-- One row of the comparison table built by `compare_providers`. -/
structure ComparisonRow where
  provider : String
  service : String
  region : String
  onDemandCost : ℚ
  reserved1yrCost : ℚ
  reserved3yrCost : ℚ
  currency : String
  performanceScore : Option ℚ
  availability : Option ℚ
  deriving Repr, DecidableEq

/-- Filter step of `compare_providers` (src/utils.py lines 226-228):
restrict to the given usage type, then optionally by region; the Python
guard `if region and region != "All"` treats `None`, the empty string
and `"All"` as "no filter". -/
def compare_filter (df : List PricingRecord) (service_type : String)
    (region : Option String) : List PricingRecord :=
  let filtered0 := df.filter (fun r => r.usageType = service_type)
  match region with
  | some reg =>
      if reg ≠ "" ∧ reg ≠ "All" then filtered0.filter (fun r => r.region = reg)
      else filtered0
  | none => filtered0

/-- Embedding of `compare_providers` (src/utils.py lines 207-258): over
the filtered subset, compute per-row on-demand, 1yr and 3yr costs, the
reserved costs falling back to the on-demand cost when the discount
field is absent. An empty filtered subset yields the empty table. -/
def compare_providers (df : List PricingRecord) (service_type : String)
    (usage_amount : ℚ) (region : Option String) : List ComparisonRow :=
  (compare_filter df service_type region).map (fun row : PricingRecord =>
    let on_demand_cost := calculate_cost usage_amount row.pricePerUnit "month" "on-demand"
    let reserved_1yr_cost := match row.reservedDiscount1yr with
      | some d => apply_reserved_discount on_demand_cost d
      | none => on_demand_cost
    let reserved_3yr_cost := match row.reservedDiscount3yr with
      | some d => apply_reserved_discount on_demand_cost d
      | none => on_demand_cost
    { provider := row.provider, service := row.service, region := row.region,
      onDemandCost := on_demand_cost, reserved1yrCost := reserved_1yr_cost,
      reserved3yrCost := reserved_3yr_cost, currency := row.currency,
      performanceScore := row.performanceScore, availability := row.availability })

/-- One row of the price-to-performance table built by
`get_performance_ratio`; `ratio` is `⊤` where the Python code stores
`float('inf')`. -/
structure PerfRow where
  provider : String
  service : String
  region : String
  cost : ℚ
  performanceScore : ℚ
  ratio : WithTop ℚ
  currency : String
  deriving Repr, DecidableEq

/-- Comparison on the `ratio` column, the sort key of
`sort_values('Price/Performance Ratio')`. -/
def ratioLE (a b : PerfRow) : Prop := a.ratio ≤ b.ratio

instance : DecidableRel ratioLE :=
  fun a b => inferInstanceAs (Decidable (a.ratio ≤ b.ratio))

instance : IsTotal PerfRow ratioLE :=
  ⟨fun a b => le_total a.ratio b.ratio⟩

instance : IsTrans PerfRow ratioLE :=
  ⟨fun _ _ _ h1 h2 => le_trans h1 h2⟩

/-- Loop body of `get_performance_ratio` (src/utils.py lines 275-292):
monthly on-demand cost, and ratio `cost / score` when the score is
positive, `float('inf')` (here `⊤`) otherwise. -/
def mkPerfRow (usage_amount : ℚ) (row : PricingRecord) : PerfRow :=
  let cost := calculate_cost usage_amount row.pricePerUnit "month" "on-demand"
  let score := row.performanceScore.getD 0
  { provider := row.provider, service := row.service, region := row.region,
    cost := cost, performanceScore := score,
    ratio := if 0 < score then ((cost / score : ℚ) : WithTop ℚ) else ⊤,
    currency := row.currency }

/-- Embedding of `get_performance_ratio` (src/utils.py lines 260-294):
when no row carries a performance score (the `'Performance Score' not in
df.columns` guard), return the empty table; otherwise build one row per
record and sort ascending by ratio. -/
def get_performance_ratio (df : List PricingRecord) (usage_amount : ℚ) :
    List PerfRow :=
  if df.all (fun r => r.performanceScore.isNone) then []
  else List.insertionSort ratioLE (df.map (mkPerfRow usage_amount))

/-- C7: `get_performance_ratio` returns the empty sequence whenever no
row of the given subset carries a performance score. -/
theorem get_performance_ratio_no_scores (df : List PricingRecord)
    (usage_amount : ℚ) (h : ∀ r ∈ df, r.performanceScore = none) :
    get_performance_ratio df usage_amount = [] := by
  have hall : df.all (fun r => r.performanceScore.isNone) = true := by
    rw [List.all_eq_true]
    intro r hr
    simp [h r hr]
  simp [get_performance_ratio, hall]

/-- Witness for C7 at a concrete one-row subset without scores. -/
theorem get_performance_ratio_no_scores_witness :
    (∀ r ∈ [demoRowNoDiscount], r.performanceScore = none) ∧
    get_performance_ratio [demoRowNoDiscount] 100 = [] :=
  ⟨by decide, get_performance_ratio_no_scores [demoRowNoDiscount] 100 (by decide)⟩

/-- C8: on a non-empty subset whose rows all carry performance scores,
`get_performance_ratio` returns a permutation of the per-row results,
each row with positive score getting ratio `cost / score` and each row
with zero score getting ratio `⊤`; the output is sorted ascending by
ratio, hence every `⊤`-ratio (zero-score) row sorts after all
finite-ratio rows. -/
theorem get_performance_ratio_sorted (df : List PricingRecord)
    (usage_amount : ℚ) (h1 : df ≠ [])
    (h2 : ∀ r ∈ df, r.performanceScore.isSome) :
    (get_performance_ratio df usage_amount).Perm
      (df.map (mkPerfRow usage_amount)) ∧
    List.Sorted ratioLE (get_performance_ratio df usage_amount) ∧
    (∀ e ∈ get_performance_ratio df usage_amount, ∃ r ∈ df,
      e.cost = calculate_cost usage_amount r.pricePerUnit "month" "on-demand" ∧
      e.performanceScore = r.performanceScore.getD 0 ∧
      (0 < e.performanceScore →
        e.ratio = ((e.cost / e.performanceScore : ℚ) : WithTop ℚ)) ∧
      (e.performanceScore = 0 → e.ratio = ⊤)) ∧
    List.Pairwise (fun a b => a.ratio = ⊤ → b.ratio = ⊤)
      (get_performance_ratio df usage_amount) := by
  have hall : df.all (fun r => r.performanceScore.isNone) = false := by
    cases df with
    | nil => exact absurd rfl h1
    | cons a as =>
      have ha := h2 a (List.mem_cons_self a as)
      simp only [List.all_cons, Bool.and_eq_false_iff]
      left
      simp [Option.isNone, Option.isSome] at ha ⊢
      cases hsc : a.performanceScore with
      | none => rw [hsc] at ha; simp at ha
      | some v => rfl
  have hout : get_performance_ratio df usage_amount
      = List.insertionSort ratioLE (df.map (mkPerfRow usage_amount)) := by
    simp [get_performance_ratio, hall]
  have hperm : (get_performance_ratio df usage_amount).Perm
      (df.map (mkPerfRow usage_amount)) := by
    rw [hout]; exact List.perm_insertionSort ratioLE _
  have hsorted : List.Sorted ratioLE (get_performance_ratio df usage_amount) := by
    rw [hout]; exact List.sorted_insertionSort ratioLE _
  refine ⟨hperm, hsorted, ?_, ?_⟩
  · intro e he
    have hmem : e ∈ df.map (mkPerfRow usage_amount) := hperm.mem_iff.mp he
    obtain ⟨r, hr, rfl⟩ := List.mem_map.mp hmem
    refine ⟨r, hr, rfl, rfl, ?_, ?_⟩
    · intro hpos
      simp only [mkPerfRow] at hpos ⊢
      rw [if_pos hpos]
    · intro hzero
      simp only [mkPerfRow] at hzero ⊢
      rw [hzero, if_neg (lt_irrefl 0)]
  · exact hsorted.imp (fun hab hatop => top_le_iff.mp (hatop ▸ hab))

/-- Witness for C8 at a two-row subset where one row has performance
score 0 and price 1/100: the result is sorted with the zero-score row
last. -/
theorem get_performance_ratio_sorted_witness :
    ([demoRowZeroScore, demoRow] ≠ []) ∧
    (∀ r ∈ [demoRowZeroScore, demoRow], r.performanceScore.isSome) ∧
    List.Sorted ratioLE (get_performance_ratio [demoRowZeroScore, demoRow] 100) :=
  ⟨by decide, by decide,
    (get_performance_ratio_sorted [demoRowZeroScore, demoRow] 100 (by decide)
      (by decide)).2.1⟩

/-- Scenario 1 catalog (spec §8): one "Storage" row per provider in
region "US East", priced 0.023, 0.018 and 0.020 per GB respectively. -/
def scenario1Catalog : List PricingRecord :=
  [{ provider := "AWS", service := "S3 Standard", instanceType := none,
     region := "US East", usageType := "Storage", pricePerUnit := 23/1000,
     units := "GB/Month", currency := "USD", performanceScore := some 85,
     availability := some (9999/100), reservedDiscount1yr := some 20,
     reservedDiscount3yr := some 40 },
   { provider := "Azure", service := "Blob Storage", instanceType := none,
     region := "US East", usageType := "Storage", pricePerUnit := 18/1000,
     units := "GB/Month", currency := "USD", performanceScore := some 82,
     availability := some (9999/100), reservedDiscount1yr := some 25,
     reservedDiscount3yr := some 45 },
   { provider := "GCP", service := "Cloud Storage", instanceType := none,
     region := "US East", usageType := "Storage", pricePerUnit := 20/1000,
     units := "GB/Month", currency := "USD", performanceScore := some 87,
     availability := some (9999/100), reservedDiscount1yr := some 15,
     reservedDiscount3yr := some 35 }]

/-- The AWS row of the Scenario 1 comparison table. -/
def scenario1AwsOut : ComparisonRow :=
  { provider := "AWS", service := "S3 Standard", region := "US East",
    onDemandCost := 23/10, reserved1yrCost := 46/25, reserved3yrCost := 69/50,
    currency := "USD", performanceScore := some 85,
    availability := some (9999/100) }

/-- Evaluation of the Scenario 1 comparison table at usage 100 in
region "US East". -/
theorem scenario1_compare_eval :
    compare_providers scenario1Catalog "Storage" 100 (some "US East")
      = [scenario1AwsOut,
         { provider := "Azure", service := "Blob Storage", region := "US East",
           onDemandCost := 9/5, reserved1yrCost := 27/20,
           reserved3yrCost := 99/100, currency := "USD",
           performanceScore := some 82, availability := some (9999/100) },
         { provider := "GCP", service := "Cloud Storage", region := "US East",
           onDemandCost := 2, reserved1yrCost := 17/10,
           reserved3yrCost := 13/10, currency := "USD",
           performanceScore := some 87, availability := some (9999/100) }] := by
  simp [compare_providers, compare_filter, scenario1Catalog,
    scenario1AwsOut, calculate_cost, apply_reserved_discount]
  norm_num

/-- C9: every row of the `compare_providers` table carries the
on-demand cost `calculate_cost usage price "month"` of a catalog row of
the requested usage type; on the Scenario 1 catalog at usage 100 in
region "US East" the per-provider on-demand costs are 2.30, 1.80 and
2.00. -/
theorem compare_providers_on_demand_cost :
    (∀ (df : List PricingRecord) (service_type : String) (usage_amount : ℚ)
      (region : Option String),
      ∀ e ∈ compare_providers df service_type usage_amount region, ∃ r ∈ df,
        r.usageType = service_type ∧ e.provider = r.provider ∧
        e.onDemandCost
          = calculate_cost usage_amount r.pricePerUnit "month" "on-demand") ∧
    (compare_providers scenario1Catalog "Storage" 100 (some "US East")).map
        (fun e => (e.provider, e.onDemandCost))
      = [("AWS", 23/10), ("Azure", 9/5), ("GCP", 2)] := by
  constructor
  · intro df st u reg e he
    obtain ⟨r, hr, rfl⟩ := List.mem_map.mp he
    have hr2 : r ∈ df.filter (fun r => r.usageType = st) := by
      cases reg with
      | none => simpa [compare_filter] using hr
      | some s =>
        simp only [compare_filter] at hr
        split_ifs at hr with hc
        · exact List.mem_of_mem_filter hr
        · exact hr
    have hmem := List.mem_filter.mp hr2
    exact ⟨r, hmem.1, by simpa using hmem.2, rfl, rfl⟩
  · rw [scenario1_compare_eval]; rfl

/-- Witness for C9 at the AWS row of the Scenario 1 table. -/
theorem compare_providers_on_demand_cost_witness :
    scenario1AwsOut
      ∈ compare_providers scenario1Catalog "Storage" 100 (some "US East") ∧
    ∃ r ∈ scenario1Catalog, r.usageType = "Storage" ∧
      scenario1AwsOut.provider = r.provider ∧
      scenario1AwsOut.onDemandCost
        = calculate_cost 100 r.pricePerUnit "month" "on-demand" :=
  ⟨by rw [scenario1_compare_eval]; exact List.mem_cons_self _ _,
    compare_providers_on_demand_cost.1 scenario1Catalog "Storage" 100
      (some "US East") scenario1AwsOut
      (by rw [scenario1_compare_eval]; exact List.mem_cons_self _ _)⟩

/-- Running-minimum scan of the Cost Simulator loop (src/app.py lines
312-326): `min_cost` starts at `float('inf')` (here `⊤ : WithTop ℚ`),
`min_cost_row` at `None`, and each row whose final cost strictly
improves the minimum replaces both. -/
def scanMin {α : Type} (c : α → ℚ) (l : List α) : Option α × WithTop ℚ :=
  l.foldl (fun acc row =>
    if (c row : WithTop ℚ) < acc.2 then (some row, (c row : WithTop ℚ)) else acc)
    (none, ⊤)

/-- Modelled from the spec's words for the refinement comparison:
"pick the row whose `total_cost(...).final_cost` is minimal — ties
broken by catalog row order (first-seen wins)": the head wins a tie
against the best of the tail. -/
def firstMinBy {α : Type} (c : α → ℚ) : List α → Option α
  | [] => none
  | a :: as =>
    match firstMinBy c as with
    | none => some a
    | some b => if c a ≤ c b then some a else some b

/-- Final cost of a catalog row, the quantity minimised by the
Cost Simulator loop. -/
def fcost (usage : ℚ) (time_period reservation_type : String)
    (r : PricingRecord) : ℚ :=
  (calculate_total_cost r usage time_period reservation_type).final_cost

/-- One entry of the Cost Simulator breakdown (`service_costs` in
src/app.py lines 336-340). -/
structure CostItem where
  name : String
  cost : ℚ
  currency : String
  deriving Repr, DecidableEq

/-- Accumulated state of the Cost Simulator loop: the breakdown list,
the running total and the last currency seen. -/
structure SimResult where
  items : List CostItem
  total_cost : ℚ
  currency : String
  deriving Repr, DecidableEq

/-- Body of the per-service loop of the Cost Simulator (src/app.py
lines 307-342): restrict the filtered subset to the service, scan for
the minimum-final-cost row, and when one exists append a breakdown item
named `"<provider> <service>"` and add its final cost to the total. -/
def simulate_step (filtered_df : List PricingRecord)
    (usage_values : String → ℚ) (time_period reservation_type : String)
    (acc : SimResult) (service : String) : SimResult :=
  let service_rows := filtered_df.filter (fun r => r.service = service)
  match (scanMin (fcost (usage_values service) time_period reservation_type)
      service_rows).1 with
  | none => acc
  | some row =>
    let cost_info :=
      calculate_total_cost row (usage_values service) time_period reservation_type
    { items := acc.items ++
        [{ name := row.provider ++ " " ++ service,
           cost := cost_info.final_cost, currency := cost_info.currency }],
      total_cost := acc.total_cost + cost_info.final_cost,
      currency := cost_info.currency }

/-- Embedding of the Cost Simulator total-cost computation (src/app.py
lines 301-342): fold the per-service step over the selected services,
starting from an empty breakdown and a zero total. -/
def simulate (filtered_df : List PricingRecord)
    (selected_services : List String) (usage_values : String → ℚ)
    (time_period reservation_type : String) : SimResult :=
  selected_services.foldl
    (simulate_step filtered_df usage_values time_period reservation_type)
    { items := [], total_cost := 0, currency := "" }

theorem firstMinBy_eq_none {α : Type} (c : α → ℚ) (l : List α) :
    firstMinBy c l = none ↔ l = [] := by
  cases l with
  | nil => simp [firstMinBy]
  | cons a as =>
    simp only [firstMinBy]
    cases h : firstMinBy c as with
    | none => simp
    | some b =>
      constructor
      · intro hsplit
        by_cases hc : c a ≤ c b <;> simp [hc] at hsplit
      · intro hcon; exact absurd hcon (List.cons_ne_nil a as)

theorem firstMinBy_cons {α : Type} (c : α → ℚ) (a : α) (as : List α) :
    firstMinBy c (a :: as) = match firstMinBy c as with
      | none => some a
      | some b => if c a ≤ c b then some a else some b := rfl

theorem firstMinBy_min {α : Type} (c : α → ℚ) :
    ∀ (l : List α) (m : α), firstMinBy c l = some m →
      m ∈ l ∧ ∀ x ∈ l, c m ≤ c x := by
  intro l
  induction l with
  | nil => intro m hm; simp [firstMinBy] at hm
  | cons a as ih =>
    intro m hm
    cases h : firstMinBy c as with
    | none =>
      simp only [firstMinBy_cons, h] at hm
      have has : as = [] := (firstMinBy_eq_none c as).mp h
      subst has
      simp at hm
      subst hm
      simp
    | some b =>
      simp only [firstMinBy_cons, h] at hm
      obtain ⟨hbmem, hbmin⟩ := ih b h
      by_cases hc : c a ≤ c b
      · rw [if_pos hc] at hm
        cases hm
        refine ⟨List.mem_cons_self a as, ?_⟩
        intro x hx
        rcases List.mem_cons.mp hx with rfl | hx2
        · exact le_refl _
        · exact le_trans hc (hbmin x hx2)
      · rw [if_neg hc] at hm
        cases hm
        refine ⟨List.mem_cons_of_mem a hbmem, ?_⟩
        intro x hx
        rcases List.mem_cons.mp hx with rfl | hx2
        · exact le_of_lt (lt_of_not_le hc)
        · exact hbmin x hx2

theorem firstMinBy_cons_of_le {α : Type} (c : α → ℚ) (b a : α)
    (as : List α) (hba : c b ≤ c a) :
    firstMinBy c (b :: a :: as) = firstMinBy c (b :: as) := by
  cases h : firstMinBy c as with
  | none =>
    have has : as = [] := (firstMinBy_eq_none c as).mp h
    subst has
    simp [firstMinBy, hba]
  | some m =>
    by_cases ham : c a ≤ c m
    · have hbm : c b ≤ c m := le_trans hba ham
      simp [firstMinBy, h, ham, hba, hbm]
    · simp [firstMinBy, h, ham]

theorem scan_from {α : Type} (c : α → ℚ) :
    ∀ (l : List α) (b : α), ∃ m, firstMinBy c (b :: l) = some m ∧
      l.foldl (fun acc row =>
          if (c row : WithTop ℚ) < acc.2 then (some row, (c row : WithTop ℚ))
          else acc)
        (some b, (c b : WithTop ℚ)) = (some m, (c m : WithTop ℚ)) := by
  intro l
  induction l with
  | nil => intro b; exact ⟨b, rfl, rfl⟩
  | cons a as ih =>
    intro b
    by_cases hab : c a < c b
    · obtain ⟨m, hm1, hm2⟩ := ih a
      refine ⟨m, ?_, ?_⟩
      · have hma : c m ≤ c a := (firstMinBy_min c (a :: as) m hm1).2 a
          (List.mem_cons_self a as)
        have hnb : ¬ c b ≤ c m := not_le.mpr (lt_of_le_of_lt hma hab)
        simp only [firstMinBy_cons c b (a :: as), hm1, hnb, if_false]
      · rw [List.foldl_cons]
        have hcond : ((c a : WithTop ℚ) < (c b : WithTop ℚ)) := by
          exact_mod_cast hab
        rw [if_pos hcond]
        exact hm2
    · have hba : c b ≤ c a := le_of_not_lt hab
      obtain ⟨m, hm1, hm2⟩ := ih b
      refine ⟨m, ?_, ?_⟩
      · rw [firstMinBy_cons_of_le c b a as hba]
        exact hm1
      · rw [List.foldl_cons]
        have hcond : ¬ ((c a : WithTop ℚ) < (c b : WithTop ℚ)) := by
          exact_mod_cast hab
        rw [if_neg hcond]
        exact hm2

/-- The running-minimum scan of the loop returns exactly the first row
attaining the minimal cost. -/
theorem scanMin_eq_firstMinBy {α : Type} (c : α → ℚ) (l : List α) :
    (scanMin c l).1 = firstMinBy c l := by
  cases l with
  | nil => rfl
  | cons a as =>
    simp only [scanMin, List.foldl_cons]
    rw [if_pos (WithTop.coe_lt_top (c a))]
    obtain ⟨m, hm1, hm2⟩ := scan_from c as a
    rw [hm2, hm1]

theorem foldl_skip_filter {β σ : Type} (f : σ → β → σ) (p : β → Bool)
    (hf : ∀ acc b, p b = false → f acc b = acc) :
    ∀ (l : List β) (acc : σ), l.foldl f acc = (l.filter p).foldl f acc := by
  intro l
  induction l with
  | nil => intro acc; rfl
  | cons b bs ih =>
    intro acc
    cases hp : p b with
    | false =>
      rw [List.foldl_cons, hf acc b hp,
        List.filter_cons_of_neg (by simp [hp])]
      exact ih acc
    | true =>
      rw [List.foldl_cons, List.filter_cons_of_pos hp, List.foldl_cons]
      exact ih (f acc b)

theorem simulate_step_skip (filtered_df : List PricingRecord)
    (usage_values : String → ℚ) (time_period reservation_type : String)
    (acc : SimResult) (s : String)
    (h : filtered_df.any (fun r => r.service = s) = false) :
    simulate_step filtered_df usage_values time_period reservation_type acc s
      = acc := by
  have hfil : filtered_df.filter (fun r => r.service = s) = [] :=
    List.filter_eq_nil_iff.mpr (List.any_eq_false.mp h)
  simp [simulate_step, hfil, scanMin]

theorem simulate_foldl_total (filtered_df : List PricingRecord)
    (usage_values : String → ℚ) (time_period reservation_type : String) :
    ∀ (selected : List String) (acc : SimResult),
      acc.total_cost = (acc.items.map (fun i => i.cost)).sum →
      ((selected.foldl
          (simulate_step filtered_df usage_values time_period reservation_type)
          acc).total_cost
        = (((selected.foldl
            (simulate_step filtered_df usage_values time_period reservation_type)
            acc).items.map (fun i => i.cost)).sum)) := by
  intro selected
  induction selected with
  | nil => intro acc h; exact h
  | cons s ss ih =>
    intro acc h
    rw [List.foldl_cons]
    apply ih
    cases hscan : (scanMin
        (fcost (usage_values s) time_period reservation_type)
        (filtered_df.filter (fun r => r.service = s))).1 with
    | none => simp [simulate_step, hscan, h]
    | some row => simp [simulate_step, hscan, h]

theorem simulate_foldl_items (filtered_df : List PricingRecord)
    (usage_values : String → ℚ) (time_period reservation_type : String) :
    ∀ (selected : List String) (acc : SimResult),
      ∀ item ∈ (selected.foldl
          (simulate_step filtered_df usage_values time_period reservation_type)
          acc).items,
        item ∈ acc.items ∨ ∃ s ∈ selected, ∃ r : PricingRecord,
          (scanMin (fcost (usage_values s) time_period reservation_type)
            (filtered_df.filter (fun row => row.service = s))).1 = some r ∧
          item.name = r.provider ++ " " ++ s ∧
          item.cost = fcost (usage_values s) time_period reservation_type r := by
  intro selected
  induction selected with
  | nil => intro acc item h; exact Or.inl h
  | cons s ss ih =>
    intro acc item h
    rw [List.foldl_cons] at h
    rcases ih _ item h with hacc | ⟨s2, hs2, r, hr⟩
    · cases hscan : (scanMin
          (fcost (usage_values s) time_period reservation_type)
          (filtered_df.filter (fun row => row.service = s))).1 with
      | none =>
        rw [simulate_step, hscan] at hacc
        exact Or.inl hacc
      | some row =>
        rw [simulate_step, hscan] at hacc
        simp only [List.mem_append, List.mem_singleton] at hacc
        rcases hacc with h1 | h2
        · exact Or.inl h1
        · refine Or.inr ⟨s, List.mem_cons_self s ss, row, hscan, ?_, ?_⟩
          · rw [h2]
          · rw [h2]; rfl
    · exact Or.inr ⟨s2, List.mem_cons_of_mem s hs2, r, hr⟩

theorem simulate_step_eval (filtered_df : List PricingRecord)
    (usage_values : String → ℚ) (time_period reservation_type : String)
    (acc : SimResult) (s : String) (row : PricingRecord)
    (h : (scanMin (fcost (usage_values s) time_period reservation_type)
        (filtered_df.filter (fun r => r.service = s))).1 = some row) :
    simulate_step filtered_df usage_values time_period reservation_type acc s
      = { items := acc.items ++
            [{ name := row.provider ++ " " ++ s,
               cost := fcost (usage_values s) time_period reservation_type row,
               currency := (calculate_total_cost row (usage_values s)
                 time_period reservation_type).currency }],
          total_cost := acc.total_cost
            + fcost (usage_values s) time_period reservation_type row,
          currency := (calculate_total_cost row (usage_values s) time_period
            reservation_type).currency } := by
  simp [simulate_step, h, fcost]

/-- Scenario 3 catalog: a single "S3 Standard" row. -/
def scenario3Catalog : List PricingRecord := [demoRow]

/-- First Scenario 5 row: monthly on-demand final cost 5 at usage 100. -/
def tieRowA : PricingRecord :=
  { provider := "A", service := "Object Storage", instanceType := none,
    region := "US East", usageType := "Storage", pricePerUnit := 5/100,
    units := "GB/Month", currency := "USD", performanceScore := none,
    availability := none, reservedDiscount1yr := none,
    reservedDiscount3yr := none }

/-- Second Scenario 5 row: monthly on-demand final cost 3 at usage 100. -/
def tieRowB : PricingRecord :=
  { provider := "B", service := "Object Storage", instanceType := none,
    region := "US East", usageType := "Storage", pricePerUnit := 3/100,
    units := "GB/Month", currency := "USD", performanceScore := none,
    availability := none, reservedDiscount1yr := none,
    reservedDiscount3yr := none }

/-- Scenario 5 catalog: two rows for one service whose monthly on-demand
final costs at usage 100 are 5 and 3. -/
def tieCatalog : List PricingRecord := [tieRowA, tieRowB]

/-- Evaluation of the Scenario 3 simulation: the nonexistent service is
skipped and the single S3 row contributes 2.30. -/
theorem scenario3_simulate_eval :
    simulate scenario3Catalog ["S3 Standard", "Nonexistent Service"]
        (fun _ => 100) "month" "on-demand"
      = { items := [{ name := "AWS S3 Standard", cost := 23/10, currency := "USD" }],
          total_cost := 23/10, currency := "USD" } := by
  have hscan : (scanMin (fcost 100 "month" "on-demand")
      (scenario3Catalog.filter (fun r => r.service = "S3 Standard"))).1
        = some demoRow := by
    rw [scanMin_eq_firstMinBy]
    rfl
  have hskip : scenario3Catalog.any
      (fun r => r.service = "Nonexistent Service") = false := rfl
  show List.foldl _ _ _ = _
  rw [List.foldl_cons, List.foldl_cons, List.foldl_nil]
  rw [simulate_step_eval scenario3Catalog (fun _ => 100) "month" "on-demand"
    _ "S3 Standard" demoRow hscan]
  rw [simulate_step_skip scenario3Catalog (fun _ => 100) "month" "on-demand"
    _ "Nonexistent Service" hskip]
  simp [fcost, calculate_total_cost, calculate_cost, demoRow]
  norm_num

/-- Evaluation of the Scenario 5 simulation: the provider-B row with
final cost 3 beats the provider-A row with final cost 5. -/
theorem tie_simulate_eval :
    simulate tieCatalog ["Object Storage"] (fun _ => 100) "month" "on-demand"
      = { items := [{ name := "B Object Storage", cost := 3, currency := "USD" }],
          total_cost := 3, currency := "USD" } := by
  have hc : ¬ (fcost 100 "month" "on-demand" tieRowA
      ≤ fcost 100 "month" "on-demand" tieRowB) := by
    simp [fcost, calculate_total_cost, calculate_cost, tieRowA, tieRowB]
    norm_num
  have h1 : firstMinBy (fcost 100 "month" "on-demand") [tieRowB]
      = some tieRowB := rfl
  have hscan : (scanMin (fcost 100 "month" "on-demand")
      (tieCatalog.filter (fun r => r.service = "Object Storage"))).1
        = some tieRowB := by
    rw [scanMin_eq_firstMinBy,
      show tieCatalog.filter (fun r => r.service = "Object Storage")
        = [tieRowA, tieRowB] from rfl]
    simp only [firstMinBy_cons, h1, hc, if_false]
  show List.foldl _ _ _ = _
  rw [List.foldl_cons, List.foldl_nil]
  rw [simulate_step_eval tieCatalog (fun _ => 100) "month" "on-demand"
    _ "Object Storage" tieRowB hscan]
  simp [fcost, calculate_total_cost, calculate_cost, tieRowB]
  norm_num

/-- C5: the Cost Simulator silently skips every selected service with no
matching row in the filtered subset (simulating the selection is the
same as simulating only its services that match some row), the returned
total cost is the sum of the breakdown item costs, and on Scenario 3
(`["S3 Standard", "Nonexistent Service"]` against a one-row catalog)
exactly one item is produced with the total equal to its cost. -/
theorem simulate_skip_and_total :
    (∀ (filtered_df : List PricingRecord) (selected : List String)
        (usage_values : String → ℚ) (time_period reservation_type : String),
      simulate filtered_df selected usage_values time_period reservation_type
        = simulate filtered_df
            (selected.filter (fun s => filtered_df.any (fun r => r.service = s)))
            usage_values time_period reservation_type ∧
      (simulate filtered_df selected usage_values time_period
          reservation_type).total_cost
        = ((simulate filtered_df selected usage_values time_period
            reservation_type).items.map (fun i => i.cost)).sum) ∧
    (simulate scenario3Catalog ["S3 Standard", "Nonexistent Service"]
        (fun _ => 100) "month" "on-demand").items.length = 1 ∧
    (simulate scenario3Catalog ["S3 Standard", "Nonexistent Service"]
        (fun _ => 100) "month" "on-demand").total_cost
      = ((simulate scenario3Catalog ["S3 Standard", "Nonexistent Service"]
          (fun _ => 100) "month" "on-demand").items.map (fun i => i.cost)).sum := by
  refine ⟨fun filtered_df selected usage_values tp ri => ⟨?_, ?_⟩, ?_, ?_⟩
  · exact foldl_skip_filter _ _
      (fun acc s hs => simulate_step_skip filtered_df usage_values tp ri acc s hs)
      selected _
  · exact simulate_foldl_total filtered_df usage_values tp ri selected _ rfl
  · rw [scenario3_simulate_eval]
    rfl
  · rw [scenario3_simulate_eval]
    simp

/-- C6: the Cost Simulator's running-minimum scan picks exactly the
first row attaining the minimal final cost for the given usage, billing
period and reservation term (ties broken by catalog row order); every
breakdown item is named `"<provider of chosen row> <service>"` and
carries the chosen row's final cost; on two rows for one service with
final costs 5 and 3 the 3-cost row's provider is chosen. -/
theorem simulate_min_selection :
    (∀ (rows : List PricingRecord) (usage : ℚ)
        (time_period reservation_type : String),
      (scanMin (fcost usage time_period reservation_type) rows).1
        = firstMinBy (fcost usage time_period reservation_type) rows) ∧
    (∀ (filtered_df : List PricingRecord) (selected : List String)
        (usage_values : String → ℚ) (time_period reservation_type : String),
      ∀ item ∈ (simulate filtered_df selected usage_values time_period
          reservation_type).items,
        ∃ s ∈ selected, ∃ r : PricingRecord,
          (scanMin (fcost (usage_values s) time_period reservation_type)
            (filtered_df.filter (fun row => row.service = s))).1 = some r ∧
          item.name = r.provider ++ " " ++ s ∧
          item.cost = fcost (usage_values s) time_period reservation_type r) ∧
    (simulate tieCatalog ["Object Storage"] (fun _ => 100) "month" "on-demand"
      = { items := [{ name := "B Object Storage", cost := 3, currency := "USD" }],
          total_cost := 3, currency := "USD" }) := by
  refine ⟨fun rows usage tp ri => scanMin_eq_firstMinBy _ rows, ?_, tie_simulate_eval⟩
  intro filtered_df selected usage_values tp ri item hitem
  rcases simulate_foldl_items filtered_df usage_values tp ri selected _ item hitem
    with habs | hok
  · simp at habs
  · exact hok

/-- Witness for C6 at the Scenario 5 catalog: the single breakdown item
comes from the minimal-cost row. -/
theorem simulate_min_selection_witness :
    (({ name := "B Object Storage", cost := 3, currency := "USD" } : CostItem)
      ∈ (simulate tieCatalog ["Object Storage"] (fun _ => 100) "month"
          "on-demand").items) ∧
    ∃ s ∈ ["Object Storage"], ∃ r : PricingRecord,
      (scanMin (fcost ((fun _ => (100 : ℚ)) s) "month" "on-demand")
        (tieCatalog.filter (fun row => row.service = s))).1 = some r ∧
      ({ name := "B Object Storage", cost := 3, currency := "USD" }
        : CostItem).name = r.provider ++ " " ++ s ∧
      ({ name := "B Object Storage", cost := 3, currency := "USD" }
        : CostItem).cost = fcost ((fun _ => (100 : ℚ)) s) "month" "on-demand" r :=
  ⟨by rw [tie_simulate_eval]; exact List.mem_cons_self _ _,
    simulate_min_selection.2.1 tieCatalog ["Object Storage"] (fun _ => 100)
      "month" "on-demand"
      { name := "B Object Storage", cost := 3, currency := "USD" }
      (by rw [tie_simulate_eval]; exact List.mem_cons_self _ _)⟩

/-- C10: the `reserved_instance` argument of `calculate_cost` has no
effect on its result: any two values give equal outputs. -/
theorem calculate_cost_ignores_reserved_instance (usage price : ℚ)
    (time_period r1 r2 : String) :
    calculate_cost usage price time_period r1
      = calculate_cost usage price time_period r2 := rfl

end CloudPricing
